import Mathlib

/-!
Shallow embedding of the behavioral control plane of the raspi_eye
repository: the event bus (src/utils/events.py), the state machine
(src/core/state_machine.py), the command interface
(src/core/command_interface.py) and the thinking/speaking state handlers
(src/states/thinking_state.py, src/states/speaking_state.py), together with
theorems settling the specification claims about them.
-/

namespace RaspiEye

/-- Event kinds of utils/events.py, class EventType. -/
inductive EventType where
  | state_changed
  | command_received
  | animation_started
  | animation_finished
  | error_occurred
deriving DecidableEq, Repr

/-- Model of one subscribed callback of utils/events.py.  The id identifies
the callback object; raises tells whether invoking it on the emitted event
raises an exception. -/
structure Listener where
  id : Nat
  raises : Bool
deriving DecidableEq, Repr

/-- Observable per-callback record of what EventSystem.emit does: the
callback was invoked; an exception it raised was caught and logged. -/
inductive CallRec where
  | invoked (id : Nat)
  | caughtError (id : Nat)
deriving DecidableEq, Repr

/-- Invoking a callback: it either returns normally or raises. -/
def callListener (l : Listener) : Except String Unit :=
  if l.raises then Except.error "exception" else Except.ok ()

/-- EventSystem.emit, utils/events.py lines 42-51: iterate over the listener
list of the event type in subscription order; each callback is invoked
inside try/except, so an exception is caught and logged and the loop
continues with the next callback.  The function is total and returns the
call trace: no exception reaches the emitter. -/
def emitTrace : List Listener → List CallRec
  | [] => []
  | l :: rest =>
    match callListener l with
    | Except.ok _ => CallRec.invoked l.id :: emitTrace rest
    | Except.error _ => CallRec.invoked l.id :: CallRec.caughtError l.id :: emitTrace rest

/-- The ids a trace shows as invoked, in order. -/
def invokedIds : List CallRec → List Nat
  | [] => []
  | CallRec.invoked i :: rest => i :: invokedIds rest
  | CallRec.caughtError _ :: rest => invokedIds rest

/-- Payload of the event the state machine emits on a transition,
core/state_machine.py lines 58-62. -/
inductive SMPayload (P : Type) where
  | stateChanged (previous_state : Option String) (current_state : String)
      (parameters : P)
deriving DecidableEq

/-- Observable actions of a StateMachine method call, in program order:
handler exit() calls, handler enter() calls with their arguments, and
event_system.emit calls. -/
inductive Action (P : Type) where
  | exitCall (state : String)
  | enterCall (state : String) (previous_state : Option String) (params : P)
  | emitEvent (etype : EventType) (payload : SMPayload P)
deriving DecidableEq

/-- StateMachine data, core/state_machine.py lines 10-13.  The handlers
carry no data the claims depend on beyond their name attribute (which
equals their registry key), so the registry is modelled by its list of
registered state names in insertion order and the active handler by its
name. -/
structure StateMachine where
  states : List String
  current_state : Option String
  previous_state : Option String
deriving DecidableEq, Repr

/-- StateMachine.add_state, lines 15-17: register the handler under its
name (a name already present keeps its key registered). -/
def add_state (m : StateMachine) (name : String) : StateMachine :=
  if name ∈ m.states then m else { m with states := m.states ++ [name] }

/-- StateMachine.change_state, lines 27-64: an unregistered name is
rejected with false and no mutation; the name of the active state is a
no-op returning true; otherwise the active handler (if any) is exited and
its name recorded, previous_state is set to that name, the target becomes
the active state, its enter is called with the previous name and the
kwargs, and finally a STATE_CHANGED event is emitted.  Returns the new
machine, the boolean result and the trace of observable actions in program
order. -/
def change_state {P : Type} (m : StateMachine) (name : String) (params : P) :
    StateMachine × Bool × List (Action P) :=
  if name ∉ m.states then (m, false, [])
  else if m.current_state = some name then (m, true, [])
  else
    let prev := m.current_state
    let exitActs : List (Action P) :=
      match m.current_state with
      | some c => [Action.exitCall c]
      | none => []
    ({ m with previous_state := prev, current_state := some name }, true,
      exitActs ++
        [Action.enterCall name prev params,
         Action.emitEvent EventType.state_changed
           (SMPayload.stateChanged prev name params)])

/-- StateMachine.remove_state, lines 19-25: when the name is registered,
the handler is exited first if it is the active one and the active pointer
cleared, then the registry entry is deleted; previous_state is untouched
and no event is emitted. -/
def remove_state (P : Type) (m : StateMachine) (name : String) :
    StateMachine × List (Action P) :=
  if name ∈ m.states then
    if m.current_state = some name then
      ({ m with states := m.states.erase name, current_state := none },
        [Action.exitCall name])
    else
      ({ m with states := m.states.erase name }, [])
  else (m, [])

/-- Number of enter() calls recorded in a trace. -/
def enterCount {P : Type} : List (Action P) → Nat
  | [] => 0
  | Action.enterCall _ _ _ :: rest => enterCount rest + 1
  | Action.exitCall _ :: rest => enterCount rest
  | Action.emitEvent _ _ :: rest => enterCount rest

/-- JSON values as decoded by json.loads, restricted to the shapes the
command handlers of core/command_interface.py touch. -/
inductive JVal where
  | s (v : String)
  | n (v : ℚ)
  | b (v : Bool)
  | null
  | dict (fields : List (String × JVal))

/-- A decoded JSON object: its field list in key order. -/
abbrev JDict := List (String × JVal)

/-- Field lookup in a decoded object, modelling the Python membership test
and item access on a dict. -/
def jlookup (d : JDict) (k : String) : Option JVal :=
  match d.find? (fun p => p.fst == k) with
  | some p => some p.snd
  | none => none

/-- Python str() of the value interpolated into the response message
f-string.  No claim constrains the message text; non-string values use a
simplified rendering. -/
def pyStr : JVal → String
  | JVal.s v => v
  | JVal.n v => toString v
  | JVal.b true => "True"
  | JVal.b false => "False"
  | JVal.null => "None"
  | JVal.dict _ => "dict"

/-- Observable action of a command handler: an event_system.emit call with
its event type and payload object. -/
inductive CIAction where
  | emitEvent (etype : EventType) (payload : JDict)

/-- CommandInterface._handle_change_state, core/command_interface.py lines
160-183: a decoded object without a state field yields the missing_state
error envelope and emits nothing; otherwise exactly one COMMAND_RECEIVED
event is emitted carrying the command name, the state and the parameters
field (defaulting to an empty object), and the reply is the success
envelope with the state and parameters.  The function receives no state
registry, so the reply does not depend on whether the state name is
registered.  Returns the emitted events and the response object. -/
def handle_change_state (command_data : JDict) : List CIAction × JDict :=
  match jlookup command_data "state" with
  | none =>
    ([], [("error", JVal.s "missing_state"),
          ("message", JVal.s "状態が指定されていません")])
  | some state_name =>
    let parameters := (jlookup command_data "parameters").getD (JVal.dict [])
    ([CIAction.emitEvent EventType.command_received
        [("command", JVal.s "change_state"),
         ("state", state_name),
         ("parameters", parameters)]],
     [("success", JVal.b true),
      ("message", JVal.s ("状態を" ++ pyStr state_name ++ "に変更しました")),
      ("state", state_name),
      ("parameters", parameters)])

/-- CommandInterface.broadcast_message, core/command_interface.py lines
255-274.  A connection is identified by its writer; writeFails tells
whether writing to that writer raises.  The loop tries to write to every
client of the set in order, catches each write failure and collects the
failing writers in clients_to_remove, and after the loop removes them from
the client set.  Returns the new client set and the writers that were
written to successfully, in order. -/
def broadcast_message (writeFails : Nat → Bool) (clients : List Nat) :
    List Nat × List Nat :=
  if clients.isEmpty then (clients, [])
  else
    let clientsToRemove := clients.filter (fun c => writeFails c)
    (clients.filter (fun c => !(clientsToRemove.elem c)),
     clients.filter (fun c => !(writeFails c)))

/-- The duration check shared by ThinkingState.update (lines 84-87) and
SpeakingState.update (lines 126-130): the stored duration must be truthy
(not None and nonzero) and the elapsed milliseconds must have reached it. -/
def durationTriggered (duration : Option ℚ) (elapsed : Nat) : Bool :=
  match duration with
  | none => false
  | some d => decide (d ≠ 0) && decide (d ≤ (elapsed : ℚ))

/-- ThinkingState data relevant to the claims,
src/states/thinking_state.py. -/
structure ThinkingState where
  thinking_intensity : ℚ
  duration : Option ℚ
deriving DecidableEq, Repr

/-- ThinkingState.enter, lines 53-59: store the intensity kwarg (default
1.0) exactly as given and the duration kwarg (default None). -/
def ThinkingState.enter (t : ThinkingState) (intensity : Option ℚ)
    (duration : Option ℚ) : ThinkingState :=
  { t with thinking_intensity := intensity.getD 1, duration := duration }

/-- ThinkingState.set_thinking_intensity, lines 176-182: clamp the argument
to the interval from 0.1 to 2.0. -/
def ThinkingState.set_thinking_intensity (t : ThinkingState) (intensity : ℚ) :
    ThinkingState :=
  { t with thinking_intensity := max (1/10) (min 2 intensity) }

/-- The fields of the dict returned by ThinkingState.update that the claims
concern. -/
structure ThinkingUpdateInfo where
  thinking_intensity : ℚ
  elapsed_time : Nat
  should_return_to_idle : Bool
deriving DecidableEq, Repr

/-- ThinkingState.update, lines 69-99: should_return_to_idle is exactly the
truthiness-guarded duration check. -/
def ThinkingState.update (t : ThinkingState) (elapsed : Nat) :
    ThinkingUpdateInfo :=
  { thinking_intensity := t.thinking_intensity,
    elapsed_time := elapsed,
    should_return_to_idle := durationTriggered t.duration elapsed }

/-- SpeakingState data relevant to the claims,
src/states/speaking_state.py. -/
structure SpeakingState where
  speaking_intensity : ℚ
  intensity_default : ℚ
  duration : Option ℚ
  lip_sync_pattern : List ℚ
  lip_sync_index : Nat
  is_speaking : Bool
deriving DecidableEq, Repr

/-- SpeakingState.enter, lines 59-80: store the intensity kwarg (default
intensity_default) exactly as given, the duration kwarg (default None) and
the lip_sync_pattern kwarg (default empty); when the resulting pattern is
empty, _generate_random_lip_sync_pattern replaces it (randomPattern stands
for the output of that random generator); reset lip_sync_index to 0 and
is_speaking to true. -/
def SpeakingState.enter (s : SpeakingState) (intensity : Option ℚ)
    (duration : Option ℚ) (lip_sync_pattern : Option (List ℚ))
    (randomPattern : List ℚ) : SpeakingState :=
  let pat := lip_sync_pattern.getD []
  let pat := if pat.isEmpty then randomPattern else pat
  { s with
    speaking_intensity := intensity.getD s.intensity_default,
    duration := duration,
    lip_sync_pattern := pat,
    lip_sync_index := 0,
    is_speaking := true }

/-- SpeakingState.set_speaking_intensity, lines 257-263: clamp the argument
to the interval from 0.1 to 2.0. -/
def SpeakingState.set_speaking_intensity (s : SpeakingState) (intensity : ℚ) :
    SpeakingState :=
  { s with speaking_intensity := max (1/10) (min 2 intensity) }

/-- SpeakingState._update_lip_sync, lines 151-163: with an empty pattern do
nothing; otherwise set the index to the elapsed milliseconds divided by 100
(integer floor) when that is below the pattern length, and to the pattern
length otherwise. -/
def SpeakingState.updateLipSync (s : SpeakingState) (elapsed : Nat) :
    SpeakingState :=
  if s.lip_sync_pattern.isEmpty then s
  else
    let targetIndex := elapsed / 100
    if targetIndex < s.lip_sync_pattern.length then
      { s with lip_sync_index := targetIndex }
    else
      { s with lip_sync_index := s.lip_sync_pattern.length }

/-- The fields of the dict returned by SpeakingState.update that the claims
concern. -/
structure SpeakingUpdateInfo where
  speaking_intensity : ℚ
  is_speaking : Bool
  elapsed_time : Nat
  should_return_to_idle : Bool
deriving DecidableEq, Repr

/-- SpeakingState.update, lines 108-149: first _update_lip_sync runs, then
the truthiness-guarded duration check and the end-of-pattern check each set
should_return_to_idle and clear is_speaking.  Returns the mutated state and
the update info. -/
def SpeakingState.update (s : SpeakingState) (elapsed : Nat) :
    SpeakingState × SpeakingUpdateInfo :=
  let s1 := s.updateLipSync elapsed
  let durTrig := durationTriggered s1.duration elapsed
  let speak1 := if durTrig then false else s1.is_speaking
  let lipDone := decide (s1.lip_sync_pattern.length ≤ s1.lip_sync_index)
  let speak2 := if lipDone then false else speak1
  ({ s1 with is_speaking := speak2 },
   { speaking_intensity := s1.speaking_intensity,
     is_speaking := speak2,
     elapsed_time := elapsed,
     should_return_to_idle := durTrig || lipDone })

/- Theorems settling the claims. -/

/-- Claim C1: a change_state transition from an active state A to a
different registered state B returns true and produces exactly the trace
exit A, then enter B with previous name A and the params, then the
STATE_CHANGED emit carrying previous A, current B and the params.  So the
exit strictly precedes the enter, the enter strictly precedes the event
emission, no event is emitted between exit and enter, and afterwards
previous_state is the name of A, B is the active state and the registry is
unchanged. -/
theorem change_state_transition (P : Type) (m : StateMachine) (a b : String)
    (p : P) (hcur : m.current_state = some a) (hreg : b ∈ m.states)
    (hne : a ≠ b) :
    change_state m b p =
      ({ m with previous_state := some a, current_state := some b }, true,
        [Action.exitCall a,
         Action.enterCall b (some a) p,
         Action.emitEvent EventType.state_changed
           (SMPayload.stateChanged (some a) b p)]) := by
  simp [change_state, hreg, hcur, hne]

/-- Concrete instance of the C1 theorem: transitioning from idle to
thinking. -/
theorem change_state_transition_witness :
    change_state (P := Nat) ⟨["idle", "thinking"], some "idle", none⟩
        "thinking" 0 =
      (⟨["idle", "thinking"], some "thinking", some "idle"⟩, true,
        [Action.exitCall "idle",
         Action.enterCall "thinking" (some "idle") 0,
         Action.emitEvent EventType.state_changed
           (SMPayload.stateChanged (some "idle") "thinking" 0)]) :=
  change_state_transition Nat ⟨["idle", "thinking"], some "idle", none⟩
    "idle" "thinking" 0 rfl (by decide) (by decide)

/-- Claim C2: change_state with an unregistered name returns false, leaves
the machine (registry, active state, previous name) unchanged and records
no action, so no handler call and no event emission happen. -/
theorem change_state_unknown (P : Type) (m : StateMachine) (name : String)
    (p : P) (h : name ∉ m.states) :
    change_state m name p = (m, false, ([] : List (Action P))) := by
  simp [change_state, h]

/-- Concrete instance of the C2 theorem: changing to a nonexistent state. -/
theorem change_state_unknown_witness :
    change_state (P := Nat) ⟨["idle"], some "idle", none⟩ "nonexistent" 0 =
      (⟨["idle"], some "idle", none⟩, false, []) :=
  change_state_unknown Nat ⟨["idle"], some "idle", none⟩ "nonexistent" 0
    (by decide)

/-- Claim C3: change_state to the name of the currently active state
returns true, records no exit, enter or emit action and leaves the machine
unchanged; consequently two consecutive change_state calls with the same
registered name, starting outside that state, record exactly one enter call
overall. -/
theorem change_state_idempotent (P : Type) (m : StateMachine)
    (name : String) (p : P) (hreg : name ∈ m.states)
    (hcur : m.current_state = some name) :
    change_state m name p = (m, true, ([] : List (Action P))) ∧
    ∀ (m0 : StateMachine) (q : P), name ∈ m0.states →
      m0.current_state ≠ some name →
      enterCount (change_state m0 name q).2.2 +
        enterCount (change_state (change_state m0 name q).1 name p).2.2 = 1 := by
  constructor
  · simp [change_state, hreg, hcur]
  · intro m0 q hreg0 hcur0
    have hfirst : change_state m0 name q =
        (StateMachine.mk m0.states (some name) m0.current_state, true,
          (match m0.current_state with
            | some c => [Action.exitCall c]
            | none => ([] : List (Action P))) ++
          [Action.enterCall name m0.current_state q,
           Action.emitEvent EventType.state_changed
             (SMPayload.stateChanged m0.current_state name q)]) := by
      simp [change_state, hreg0, hcur0]
    rw [hfirst]
    cases hm : m0.current_state with
    | none => simp [change_state, hreg0, enterCount]
    | some c => simp [change_state, hreg0, enterCount]

/-- Concrete instance of the C3 theorem: a repeated change to thinking is a
no-op and the pair of calls records a single enter. -/
theorem change_state_idempotent_witness :
    change_state (P := Nat) ⟨["idle", "thinking"], some "thinking", none⟩
        "thinking" 5 =
      (⟨["idle", "thinking"], some "thinking", none⟩, true, []) ∧
    enterCount (change_state (P := Nat)
        ⟨["idle", "thinking"], some "idle", none⟩ "thinking" 7).2.2 +
      enterCount (change_state
        (change_state (P := Nat)
          ⟨["idle", "thinking"], some "idle", none⟩ "thinking" 7).1
        "thinking" 5).2.2 = 1 :=
  ⟨(change_state_idempotent Nat
      ⟨["idle", "thinking"], some "thinking", none⟩ "thinking" 5
      (by decide) rfl).1,
   (change_state_idempotent Nat
      ⟨["idle", "thinking"], some "thinking", none⟩ "thinking" 5
      (by decide) rfl).2
     ⟨["idle", "thinking"], some "idle", none⟩ 7 (by decide) (by decide)⟩

/-- Claim C5: one emit invokes every subscribed callback exactly once and
in subscription order, whether or not some of the callbacks raise: the
invoked ids of the emit trace are exactly the listener ids in order.
emitTrace is a total function into traces, so a caught callback exception
never propagates to the emitter. -/
theorem emit_invokes_all (ls : List Listener) :
    invokedIds (emitTrace ls) = ls.map Listener.id := by
  induction ls with
  | nil => rfl
  | cons l rest ih =>
    by_cases h : l.raises
    · simp [emitTrace, callListener, h, invokedIds, ih]
    · simp [emitTrace, callListener, h, invokedIds, ih]

/-- Claim C9: removing the registered, currently active state records
exactly one exit call for that handler and no event emission, clears the
active pointer, deletes the registry entry and leaves previous_state
untouched, so a STATE_CHANGED subscriber never observes this transition to
the no-active-state condition and the previous-state record may keep naming
a now-unregistered state. -/
theorem remove_state_active (P : Type) (m : StateMachine) (name : String)
    (hreg : name ∈ m.states) (hcur : m.current_state = some name) :
    remove_state P m name =
      ({ m with states := m.states.erase name, current_state := none },
        [Action.exitCall name]) := by
  simp [remove_state, hreg, hcur]

/-- Concrete instance of the C9 theorem: removing the active idle state
whose name is also the recorded previous state leaves previous_state naming
a state that is no longer registered. -/
theorem remove_state_active_witness :
    remove_state Nat ⟨["idle"], some "idle", some "idle"⟩ "idle" =
      (⟨[], none, some "idle"⟩, [Action.exitCall "idle"]) :=
  remove_state_active Nat ⟨["idle"], some "idle", some "idle"⟩ "idle"
    (by decide) rfl

/-- Claim C4: _handle_change_state returns the missing_state error envelope
when the decoded command object lacks a state field and emits nothing;
otherwise it emits exactly one COMMAND_RECEIVED event carrying the command
name change_state, the given state and the given parameters (an empty
object by default), and replies success with the state and the parameters.
The definition receives no state registry, so the same reply is produced
whether or not the state name is registered. -/
theorem handle_change_state_spec (d : JDict) :
    (jlookup d "state" = none →
      handle_change_state d =
        ([], [("error", JVal.s "missing_state"),
              ("message", JVal.s "状態が指定されていません")])) ∧
    (∀ st : JVal, jlookup d "state" = some st →
      handle_change_state d =
        ([CIAction.emitEvent EventType.command_received
            [("command", JVal.s "change_state"),
             ("state", st),
             ("parameters", (jlookup d "parameters").getD (JVal.dict []))]],
         [("success", JVal.b true),
          ("message", JVal.s ("状態を" ++ pyStr st ++ "に変更しました")),
          ("state", st),
          ("parameters",
            (jlookup d "parameters").getD (JVal.dict []))])) := by
  constructor
  · intro h
    simp [handle_change_state, h]
  · intro st h
    simp [handle_change_state, h]

/-- Concrete instance of the C4 theorem: the change_state command for the
thinking state with an intensity parameter. -/
theorem handle_change_state_spec_witness :
    handle_change_state
        [("command", JVal.s "change_state"),
         ("state", JVal.s "thinking"),
         ("parameters", JVal.dict [("intensity", JVal.n (3/2))])] =
      ([CIAction.emitEvent EventType.command_received
          [("command", JVal.s "change_state"),
           ("state", JVal.s "thinking"),
           ("parameters", JVal.dict [("intensity", JVal.n (3/2))])]],
       [("success", JVal.b true),
        ("message", JVal.s "状態をthinkingに変更しました"),
        ("state", JVal.s "thinking"),
        ("parameters", JVal.dict [("intensity", JVal.n (3/2))])]) :=
  (handle_change_state_spec
      [("command", JVal.s "change_state"),
       ("state", JVal.s "thinking"),
       ("parameters", JVal.dict [("intensity", JVal.n (3/2))])]).2
    (JVal.s "thinking") rfl

/-- Claim C6 counterexample: with open connections 0 and 1 where the write
to connection 1 fails, broadcast_message removes connection 1, so the
connection set after the call differs from the set before it. -/
theorem broadcast_message_mutates :
    (broadcast_message (fun c => c == 1) [0, 1]).1 ≠ [0, 1] := by decide

/-- Claim C6 amended: the connection set after broadcast_message keeps, in
order, exactly the connections whose write succeeded, so the set is
unchanged whenever every write succeeds (and every surviving connection was
delivered to); a failing write removes that connection from the set inside
broadcast_message itself. -/
theorem broadcast_message_clients (writeFails : Nat → Bool)
    (clients : List Nat) :
    (broadcast_message writeFails clients).1 =
      clients.filter (fun c => !(writeFails c)) ∧
    ((∀ c ∈ clients, writeFails c = false) →
      broadcast_message writeFails clients = (clients, clients)) := by
  constructor
  · cases clients with
    | nil => rfl
    | cons a l =>
      show List.filter
          (fun c =>
            !(List.elem c (List.filter (fun c => writeFails c) (a :: l))))
          (a :: l) =
        List.filter (fun c => !(writeFails c)) (a :: l)
      apply List.filter_congr
      intro c hc
      by_cases hw : writeFails c = true
      · simp [List.mem_filter, hc, hw]
      · simp [List.mem_filter, hw]
  · intro h
    have hrem : List.filter (fun c => writeFails c) clients = [] :=
      List.filter_eq_nil_iff.mpr (fun c hc => by simp [h c hc])
    cases clients with
    | nil => rfl
    | cons a l =>
      show (List.filter
          (fun c =>
            !(List.elem c (List.filter (fun c => writeFails c) (a :: l))))
          (a :: l),
        List.filter (fun c => !(writeFails c)) (a :: l)) = (a :: l, a :: l)
      rw [hrem]
      have h1 : List.filter (fun c => !(List.elem c ([] : List Nat)))
          (a :: l) = a :: l :=
        List.filter_eq_self.mpr (fun c _ => rfl)
      have h2 : List.filter (fun c => !(writeFails c)) (a :: l) = a :: l :=
        List.filter_eq_self.mpr (fun c hc => by simp [h c hc])
      rw [h1, h2]

/-- Concrete instance of the C6 amended theorem: a failing connection 2 is
removed while 0 and 1 survive, and a failure-free broadcast leaves the set
unchanged. -/
theorem broadcast_message_clients_witness :
    (broadcast_message (fun c => c == 2) [0, 1, 2]).1 = [0, 1] ∧
    broadcast_message (fun _ => false) [0, 1] = ([0, 1], [0, 1]) :=
  ⟨((broadcast_message_clients (fun c => c == 2) [0, 1, 2]).1).trans
      (by decide),
   (broadcast_message_clients (fun _ => false) [0, 1]).2
      (fun c _ => rfl)⟩

/-- Convenient concrete speaking handler instance (the configuration
default intensity is 1.0). -/
def speakingInit : SpeakingState :=
  { speaking_intensity := 1, intensity_default := 1, duration := none,
    lip_sync_pattern := [], lip_sync_index := 0, is_speaking := true }

/-- Convenient concrete thinking handler instance. -/
def thinkingInit : ThinkingState :=
  { thinking_intensity := 1, duration := none }

/-- Claim C7 counterexample: entering Speaking with intensity 5 stores 5,
which lies outside the interval from 0.1 to 2.0, and likewise for Thinking:
enter applies no clamp to the intensity kwarg. -/
theorem enter_intensity_not_clamped :
    (speakingInit.enter (some 5) none none [1]).speaking_intensity = 5 ∧
    ¬(speakingInit.enter (some 5) none none [1]).speaking_intensity ≤ 2 ∧
    (thinkingInit.enter (some 5) none).thinking_intensity = 5 ∧
    ¬(thinkingInit.enter (some 5) none).thinking_intensity ≤ 2 := by
  refine ⟨rfl, by decide, rfl, by decide⟩

/-- Claim C7 amended: on entry into Thinking or Speaking the intensity
parameter is stored exactly as given, without clamping; the clamp to the
interval from 0.1 to 2.0 is applied only by set_speaking_intensity and
set_thinking_intensity, whose stored value equals the parameter clamped to
that interval and always lies within it. -/
theorem intensity_clamping (s : SpeakingState) (t : ThinkingState) (i : ℚ)
    (d : Option ℚ) (lp : Option (List ℚ)) (r : List ℚ) :
    (s.enter (some i) d lp r).speaking_intensity = i ∧
    (t.enter (some i) d).thinking_intensity = i ∧
    (s.set_speaking_intensity i).speaking_intensity =
      max (1/10) (min 2 i) ∧
    (t.set_thinking_intensity i).thinking_intensity =
      max (1/10) (min 2 i) ∧
    1/10 ≤ (s.set_speaking_intensity i).speaking_intensity ∧
    (s.set_speaking_intensity i).speaking_intensity ≤ 2 ∧
    1/10 ≤ (t.set_thinking_intensity i).thinking_intensity ∧
    (t.set_thinking_intensity i).thinking_intensity ≤ 2 := by
  refine ⟨rfl, rfl, rfl, rfl, le_max_left _ _,
    max_le (by norm_num) (min_le_left _ _), le_max_left _ _,
    max_le (by norm_num) (min_le_left _ _)⟩

/-- Structure fields _update_lip_sync leaves untouched. -/
theorem updateLipSync_preserves (s : SpeakingState) (e : Nat) :
    (s.updateLipSync e).duration = s.duration ∧
    (s.updateLipSync e).lip_sync_pattern = s.lip_sync_pattern ∧
    (s.updateLipSync e).is_speaking = s.is_speaking := by
  by_cases h : s.lip_sync_pattern.isEmpty
  · simp [SpeakingState.updateLipSync, h]
  · by_cases h2 : e / 100 < s.lip_sync_pattern.length <;>
      simp [SpeakingState.updateLipSync, h, h2]

/-- Claim C8: in the Speaking state with a non-empty lip-sync pattern of
length L, update sets the lip-sync index to the elapsed milliseconds
divided by 100 (integer floor) when that value is below L and clamps it to
L otherwise; and whenever the index has reached L, the info returned by
update has should_return_to_idle = true. -/
theorem speaking_lip_sync (s : SpeakingState) (elapsed : Nat)
    (h : s.lip_sync_pattern ≠ []) :
    ((SpeakingState.update s elapsed).1.lip_sync_index =
      if elapsed / 100 < s.lip_sync_pattern.length then elapsed / 100
      else s.lip_sync_pattern.length) ∧
    (s.lip_sync_pattern.length ≤
        (SpeakingState.update s elapsed).1.lip_sync_index →
      (SpeakingState.update s elapsed).2.should_return_to_idle = true) := by
  have hne : s.lip_sync_pattern.isEmpty = false := by
    cases hp : s.lip_sync_pattern with
    | nil => exact absurd hp h
    | cons a l => rfl
  have hidx : (s.updateLipSync elapsed).lip_sync_index =
      if elapsed / 100 < s.lip_sync_pattern.length then elapsed / 100
      else s.lip_sync_pattern.length := by
    by_cases h2 : elapsed / 100 < s.lip_sync_pattern.length <;>
      simp [SpeakingState.updateLipSync, hne, h2]
  have hpat : (s.updateLipSync elapsed).lip_sync_pattern =
      s.lip_sync_pattern := (updateLipSync_preserves s elapsed).2.1
  constructor
  · simpa [SpeakingState.update] using hidx
  · intro hlen
    have hlen2 : s.lip_sync_pattern.length ≤
        (s.updateLipSync elapsed).lip_sync_index := by
      simpa [SpeakingState.update] using hlen
    simp [SpeakingState.update, hpat, hlen2]

/-- Concrete speaking handler with a three-step lip-sync pattern. -/
def speakingWithPattern : SpeakingState :=
  { speakingInit with lip_sync_pattern := [1, 1/2, 3/4] }

/-- Concrete instance of the C8 theorem: after 350 ms the index of a
three-entry pattern is clamped to 3 and update signals return-to-idle. -/
theorem speaking_lip_sync_witness :
    ((SpeakingState.update speakingWithPattern 350).1.lip_sync_index =
      if 350 / 100 < speakingWithPattern.lip_sync_pattern.length
      then 350 / 100 else speakingWithPattern.lip_sync_pattern.length) ∧
    (speakingWithPattern.lip_sync_pattern.length ≤
        (SpeakingState.update speakingWithPattern 350).1.lip_sync_index →
      (SpeakingState.update speakingWithPattern 350).2.should_return_to_idle
        = true) :=
  speaking_lip_sync speakingWithPattern 350 (by decide)

/-- Claim C10: the duration check of the Thinking and Speaking update is
truthiness-guarded, so a stored duration of 0 behaves like an absent one:
the check fires exactly for a stored nonzero duration that the elapsed
time has reached; Thinking.update signals return-to-idle exactly when the
check fires; and with duration None or 0, Speaking.update can signal
return-to-idle only through the end-of-pattern condition. -/
theorem duration_zero_unlimited (t : ThinkingState) (s : SpeakingState)
    (elapsed : Nat) :
    (∀ d : Option ℚ, durationTriggered d elapsed = true ↔
      ∃ q : ℚ, d = some q ∧ q ≠ 0 ∧ q ≤ (elapsed : ℚ)) ∧
    (t.update elapsed).should_return_to_idle =
      durationTriggered t.duration elapsed ∧
    (t.duration = none ∨ t.duration = some 0 →
      (t.update elapsed).should_return_to_idle = false) ∧
    ((SpeakingState.update s elapsed).2.should_return_to_idle =
      (durationTriggered s.duration elapsed ||
        decide (s.lip_sync_pattern.length ≤
          (s.updateLipSync elapsed).lip_sync_index))) ∧
    (s.duration = none ∨ s.duration = some 0 →
      (SpeakingState.update s elapsed).2.should_return_to_idle =
        decide (s.lip_sync_pattern.length ≤
          (s.updateLipSync elapsed).lip_sync_index)) := by
  have hd := (updateLipSync_preserves s elapsed).1
  have hp := (updateLipSync_preserves s elapsed).2.1
  have h4 : (SpeakingState.update s elapsed).2.should_return_to_idle =
      (durationTriggered s.duration elapsed ||
        decide (s.lip_sync_pattern.length ≤
          (s.updateLipSync elapsed).lip_sync_index)) := by
    simp [SpeakingState.update, hd, hp]
  refine ⟨?_, rfl, ?_, h4, ?_⟩
  · intro d
    cases d with
    | none => simp [durationTriggered]
    | some q => simp [durationTriggered]
  · rintro (h | h) <;> simp [ThinkingState.update, durationTriggered, h]
  · rintro (h | h) <;> simp [h4, durationTriggered, h]

/-- Concrete thinking handler with a stored duration of 0. -/
def thinkingZero : ThinkingState :=
  { thinking_intensity := 1, duration := some 0 }

/-- Concrete speaking handler with a stored duration of 0. -/
def speakingZero : SpeakingState :=
  { speakingInit with duration := some 0, lip_sync_pattern := [1] }

/-- Concrete instance of the C10 theorem: with duration 0 neither handler
signals return-to-idle from the duration check even after a long elapsed
time. -/
theorem duration_zero_unlimited_witness :
    (thinkingZero.update 999999).should_return_to_idle = false ∧
    (SpeakingState.update speakingZero 999999).2.should_return_to_idle =
      decide (speakingZero.lip_sync_pattern.length ≤
        (speakingZero.updateLipSync 999999).lip_sync_index) :=
  ⟨(duration_zero_unlimited thinkingZero speakingZero 999999).2.2.1
      (Or.inr rfl),
   (duration_zero_unlimited thinkingZero speakingZero 999999).2.2.2.2
      (Or.inr rfl)⟩

end RaspiEye
